import Mathlib

/-!
Verification of the laboratory-calculations core (`src/calculations.py`) of
the lab-manager application.  Python floats are modelled as exact rationals
(`ℚ`); Python's `/`, which raises `ZeroDivisionError` on a zero denominator,
is modelled by `pydiv` returning `Except PyError ℚ` at the program points
where the denominator is not guarded by the source; divisions that the source
guards (so the denominator is provably nonzero at that point) are modelled by
total `ℚ` division, which agrees with Python there.  Python's `dict.get(k, d)`
is modelled by `Option.getD` over `Option`-valued tables.  `round(x, n)` and
`%.3f`-formatting round half to even, as Python does.
-/

/-- `class MassUnit(Enum)` from `calculations.py`. -/
inductive MassUnit where
  | GRAMS
  | MILLIGRAMS
  | MICROGRAMS
  | KILOGRAMS
deriving DecidableEq, Repr

/-- `class VolumeUnit(Enum)` from `calculations.py`. -/
inductive VolumeUnit where
  | LITERS
  | MILLILITERS
  | MICROLITERS
deriving DecidableEq, Repr

/-- `class ConcentrationUnit(Enum)` from `calculations.py`. -/
inductive ConcentrationUnit where
  | MOLAR
  | MILLIMOLAR
  | MICROMOLAR
  | NANOMOLAR
  | PERCENT_WV
  | PERCENT_VV
deriving DecidableEq, Repr

/-- The `MASS_TO_GRAMS` dict: every mass unit has an entry. -/
def MASS_TO_GRAMS : MassUnit → Option ℚ
  | .KILOGRAMS => some 1000
  | .GRAMS => some 1
  | .MILLIGRAMS => some (1/1000)
  | .MICROGRAMS => some (1/1000000)

/-- The `VOLUME_TO_LITERS` dict: every volume unit has an entry. -/
def VOLUME_TO_LITERS : VolumeUnit → Option ℚ
  | .LITERS => some 1
  | .MILLILITERS => some (1/1000)
  | .MICROLITERS => some (1/1000000)

/-- The `CONC_TO_MOLAR` dict: the two percent units have NO entry. -/
def CONC_TO_MOLAR : ConcentrationUnit → Option ℚ
  | .MOLAR => some 1
  | .MILLIMOLAR => some (1/1000)
  | .MICROMOLAR => some (1/1000000)
  | .NANOMOLAR => some (1/1000000000)
  | .PERCENT_WV => none
  | .PERCENT_VV => none

/-- `MASS_TO_GRAMS.get(unit, 1)`. -/
def massGetD (u : MassUnit) : ℚ := (MASS_TO_GRAMS u).getD 1

/-- `VOLUME_TO_LITERS.get(unit, 1)`. -/
def volGetD (u : VolumeUnit) : ℚ := (VOLUME_TO_LITERS u).getD 1

/-- `CONC_TO_MOLAR.get(unit, 1)`: a unit absent from the dict (the percent
units) silently contributes the default factor `1`. -/
def concGetD (u : ConcentrationUnit) : ℚ := (CONC_TO_MOLAR u).getD 1

/-- The only runtime error the module can raise: Python's `ZeroDivisionError`. -/
inductive PyError where
  | zeroDivision
deriving DecidableEq, Repr

/-- Python float division: raises `ZeroDivisionError` on a zero denominator,
otherwise exact division (floats modelled as rationals). -/
def pydiv (a b : ℚ) : Except PyError ℚ :=
  if b = 0 then Except.error PyError.zeroDivision else Except.ok (a / b)

/-- Round a rational to the nearest integer, ties to even — the rounding mode
of Python's `round` and of `%.nf` float formatting. -/
def roundHalfEven (q : ℚ) : ℤ :=
  if q - ⌊q⌋ < 1/2 then ⌊q⌋
  else if 1/2 < q - ⌊q⌋ then ⌊q⌋ + 1
  else if ⌊q⌋ % 2 = 0 then ⌊q⌋ else ⌊q⌋ + 1

/-- Python's `round(x, 4)` on the rational model. -/
def round4 (q : ℚ) : ℚ := (roundHalfEven (q * 10000) : ℚ) / 10000

/-- Left-pad a three-digit fractional part with zeros. -/
def pad3 (n : ℕ) : String :=
  if n < 10 then "00" ++ toString n
  else if n < 100 then "0" ++ toString n
  else toString n

/-- Python's `f"{x:.3f}"` on the rational model: round half to even at three
decimal places and render with sign (a negative value rounding to zero prints
as `-0.000`, as Python does). -/
def fmt3 (x : ℚ) : String :=
  (if x < 0 then "-" else "")
    ++ toString ((roundHalfEven (x * 1000)).natAbs / 1000)
    ++ "." ++ pad3 ((roundHalfEven (x * 1000)).natAbs % 1000)

/-- `format_mass(mass_g)` from `calculations.py`. -/
def format_mass (mass_g : ℚ) : String :=
  if 1000 ≤ mass_g then fmt3 (mass_g / 1000) ++ " kg"
  else if 1 ≤ mass_g then fmt3 mass_g ++ " g"
  else if 1/1000 ≤ mass_g then fmt3 (mass_g * 1000) ++ " mg"
  else fmt3 (mass_g * 1000000) ++ " µg"

/-- `format_volume(volume_L)` from `calculations.py`. -/
def format_volume (volume_L : ℚ) : String :=
  if 1 ≤ volume_L then fmt3 volume_L ++ " L"
  else if 1/1000 ≤ volume_L then fmt3 (volume_L * 1000) ++ " mL"
  else fmt3 (volume_L * 1000000) ++ " µL"

/-- `format_concentration(conc_M)` from `calculations.py`. -/
def format_concentration (conc_M : ℚ) : String :=
  if 1 ≤ conc_M then fmt3 conc_M ++ " M"
  else if 1/1000 ≤ conc_M then fmt3 (conc_M * 1000) ++ " mM"
  else if 1/1000000 ≤ conc_M then fmt3 (conc_M * 1000000) ++ " µM"
  else fmt3 (conc_M * 1000000000) ++ " nM"

/-- Rounding an integer is the identity. -/
theorem roundHalfEven_intCast (m : ℤ) : roundHalfEven (m : ℚ) = m := by
  unfold roundHalfEven
  rw [Int.floor_intCast]
  norm_num

/-- Evaluation helper for `fmt3` at a nonnegative value whose thousandths are
exactly the natural number `n`. -/
theorem fmt3_eval_nonneg (x : ℚ) (n : ℕ) (hx : ¬ x < 0) (h : x * 1000 = (n : ℚ)) :
    fmt3 x = toString (n / 1000) ++ "." ++ pad3 (n % 1000) := by
  have h2 : roundHalfEven (x * 1000) = (n : ℤ) := by
    rw [h]
    exact_mod_cast roundHalfEven_intCast (n : ℤ)
  unfold fmt3
  rw [h2, if_neg hx]
  simp

/-- Evaluation helper for `fmt3` at a negative value whose thousandths are
exactly `-n`. -/
theorem fmt3_eval_neg (x : ℚ) (n : ℕ) (hx : x < 0) (h : x * 1000 = -(n : ℚ)) :
    fmt3 x = "-" ++ toString (n / 1000) ++ "." ++ pad3 (n % 1000) := by
  have h2 : roundHalfEven (x * 1000) = -(n : ℤ) := by
    rw [h]
    have := roundHalfEven_intCast (-(n : ℤ))
    rw [← this]
    norm_num
  unfold fmt3
  rw [h2, if_pos hx]
  simp

example : format_mass 0 = "0.000 µg" := by
  have : fmt3 ((0 : ℚ) * 1000000) = "0.000" := by
    rw [fmt3_eval_nonneg _ 0 (by norm_num) (by norm_num)]; rfl
  unfold format_mass
  rw [if_neg (by norm_num), if_neg (by norm_num), if_neg (by norm_num), this]
  rfl

example : format_mass 58.44 = "58.440 g" := by
  have : fmt3 (58.44 : ℚ) = "58.440" := by
    rw [fmt3_eval_nonneg _ 58440 (by norm_num) (by norm_num)]; rfl
  unfold format_mass
  rw [if_neg (by norm_num), if_pos (by norm_num), this]
  rfl

example : fmt3 (-1000000) = "-1000000.000" := by
  rw [fmt3_eval_neg _ 1000000000 (by norm_num) (by norm_num)]; rfl

example : round4 (1/100000) = 0 := by
  unfold round4
  have h : (1/100000 : ℚ) * 10000 = 1/10 := by norm_num
  have h2 : roundHalfEven (1/10 : ℚ) = 0 := by
    unfold roundHalfEven
    norm_num
  rw [h, h2]
  norm_num

/-- `calculate_mass` from `calculations.py`.  The division by
`purity_fraction` is not guarded by the source, so it is modelled by `pydiv`
and the function can fail with `ZeroDivisionError`. -/
def calculate_mass (molarity volume mw purity : ℚ)
    (volume_unit : VolumeUnit) (conc_unit : ConcentrationUnit) :
    Except PyError (ℚ × String) :=
  let molarity_M := molarity * concGetD conc_unit
  let volume_L := volume * volGetD volume_unit
  let purity_fraction := purity / 100
  match pydiv (molarity_M * volume_L * mw) purity_fraction with
  | Except.error e => Except.error e
  | Except.ok mass_g => Except.ok (mass_g, format_mass mass_g)

/-- `calculate_molarity` from `calculations.py`.  The division by
`volume_L * mw` happens only after the source's `volume_L == 0 or mw == 0`
guard, where the denominator is nonzero, so total division is a faithful
model and the function cannot fail. -/
def calculate_molarity (mass volume mw purity : ℚ)
    (mass_unit : MassUnit) (volume_unit : VolumeUnit) : ℚ × String :=
  let mass_g := mass * massGetD mass_unit
  let volume_L := volume * volGetD volume_unit
  if volume_L = 0 ∨ mw = 0 then (0, "0 M")
  else
    let purity_fraction := purity / 100
    let molarity_M := mass_g / (volume_L * mw) * purity_fraction
    (molarity_M, format_concentration molarity_M)

/-- `calculate_stock_volume` from `calculations.py`.  The division by `c1_M`
happens only after the source's `c1_M == 0` guard, so total division is a
faithful model and the function cannot fail. -/
def calculate_stock_volume (c1 c2 v2 : ℚ)
    (c1_unit c2_unit : ConcentrationUnit) (v2_unit : VolumeUnit) :
    ℚ × String × ℚ × String :=
  let c1_M := c1 * concGetD c1_unit
  let c2_M := c2 * concGetD c2_unit
  let v2_L := v2 * volGetD v2_unit
  if c1_M = 0 then (0, "0 L", v2_L, format_volume v2_L)
  else
    let v1_L := c2_M * v2_L / c1_M
    let diluent_L := v2_L - v1_L
    (v1_L, format_volume v1_L, diluent_L, format_volume diluent_L)

/-- `calculate_percent_solution` from `calculations.py`: the division is
guarded by the `volume_mL == 0` check. -/
def calculate_percent_solution (mass volume : ℚ)
    (mass_unit : MassUnit) (volume_unit : VolumeUnit) : ℚ :=
  let mass_g := mass * massGetD mass_unit
  let volume_mL := volume * volGetD volume_unit * 1000
  if volume_mL = 0 then 0 else mass_g / volume_mL * 100

/-- The loop of `calculate_serial_dilution`: `k` iterations remain, `i` is the
current step index and `current_conc` the running concentration.  Each
iteration appends an entry and then performs `current_conc /= dilution_factor`,
whose failure (factor 0) aborts the whole call, as `ZeroDivisionError` does. -/
def serialLoop (dilution_factor : ℚ) (conc_unit : ConcentrationUnit) :
    ℕ → ℕ → ℚ → Except PyError (List (ℕ × ℚ × String))
  | 0, _, _ => Except.ok []
  | k + 1, i, current_conc =>
    match pydiv current_conc dilution_factor with
    | Except.error e => Except.error e
    | Except.ok next_conc =>
      match serialLoop dilution_factor conc_unit k (i + 1) next_conc with
      | Except.error e => Except.error e
      | Except.ok rest =>
        Except.ok ((i, current_conc,
          format_concentration (current_conc * concGetD conc_unit)) :: rest)

/-- `calculate_serial_dilution` from `calculations.py`: the loop body runs for
`i in range(num_dilutions + 1)`. -/
def calculate_serial_dilution (initial_conc dilution_factor : ℚ)
    (num_dilutions : ℕ) (conc_unit : ConcentrationUnit) :
    Except PyError (List (ℕ × ℚ × String)) :=
  serialLoop dilution_factor conc_unit (num_dilutions + 1) 0 initial_conc

/-- A recipe step record: the dictionaries consumed by `scale_recipe` carry
the fields of the `RecipeStep` dataclass. -/
structure RecipeStep where
  step_number : ℤ
  reagent_name : String
  amount : ℚ
  amount_unit : String
  notes : String
deriving DecidableEq, Repr

/-- `scale_recipe` from `calculations.py`.  The division computing
`scale_factor` happens only after the `old_total_volume == 0` guard. -/
def scale_recipe (steps : List RecipeStep)
    (new_total_volume old_total_volume : ℚ) : List RecipeStep :=
  if old_total_volume = 0 then steps
  else
    let scale_factor := new_total_volume / old_total_volume
    steps.map (fun step => { step with amount := round4 (step.amount * scale_factor) })

/-- The raw concentration column of a serial-dilution result; an aborted run
contributes no entries. -/
def rawConcs (r : Except PyError (List (ℕ × ℚ × String))) : List ℚ :=
  match r with
  | Except.ok l => l.map (fun e => e.2.1)
  | Except.error _ => []

/-- Number of entries of a successful serial-dilution run. -/
def okLength (r : Except PyError (List (ℕ × ℚ × String))) : Option ℕ :=
  match r with
  | Except.ok l => some l.length
  | Except.error _ => none

/-- The number `format_mass` displays (the branch structure of the source). -/
def massDisplayed (x : ℚ) : ℚ :=
  if 1000 ≤ x then x / 1000
  else if 1 ≤ x then x
  else if 1/1000 ≤ x then x * 1000
  else x * 1000000

/-- The unit symbol `format_mass` selects. -/
def massSym (x : ℚ) : String :=
  if 1000 ≤ x then "kg" else if 1 ≤ x then "g"
  else if 1/1000 ≤ x then "mg" else "µg"

/-- The number `format_volume` displays. -/
def volumeDisplayed (x : ℚ) : ℚ :=
  if 1 ≤ x then x
  else if 1/1000 ≤ x then x * 1000
  else x * 1000000

/-- The unit symbol `format_volume` selects. -/
def volumeSym (x : ℚ) : String :=
  if 1 ≤ x then "L" else if 1/1000 ≤ x then "mL" else "µL"

/-- The number `format_concentration` displays. -/
def concDisplayed (x : ℚ) : ℚ :=
  if 1 ≤ x then x
  else if 1/1000 ≤ x then x * 1000
  else if 1/1000000 ≤ x then x * 1000000
  else x * 1000000000

/-- The unit symbol `format_concentration` selects. -/
def concSym (x : ℚ) : String :=
  if 1 ≤ x then "M" else if 1/1000 ≤ x then "mM"
  else if 1/1000000 ≤ x then "µM" else "nM"

theorem format_mass_displayed (x : ℚ) :
    format_mass x = fmt3 (massDisplayed x) ++ " " ++ massSym x := by
  unfold format_mass massDisplayed massSym
  split_ifs <;> (rw [String.append_assoc]; rfl)

theorem format_volume_displayed (x : ℚ) :
    format_volume x = fmt3 (volumeDisplayed x) ++ " " ++ volumeSym x := by
  unfold format_volume volumeDisplayed volumeSym
  split_ifs <;> (rw [String.append_assoc]; rfl)

theorem format_concentration_displayed (x : ℚ) :
    format_concentration x = fmt3 (concDisplayed x) ++ " " ++ concSym x := by
  unfold format_concentration concDisplayed concSym
  split_ifs <;> (rw [String.append_assoc]; rfl)

/-- Modelled from the spec's words (§4.1), as the refinement target for the
formatting claims: walk the dimension's ladder largest-to-smallest and pick
the first unit in which the expressed value `x / factor` is at least 1,
falling through to the smallest unit. -/
def chooseFrom (x : ℚ) : List (ℚ × String) → ℚ × String → ℚ × String
  | [], small => small
  | (f, s) :: rest, small => if 1 ≤ x / f then (f, s) else chooseFrom x rest small

/-- Modelled from the spec's words (§4.1): render the value expressed in the
chosen unit to three decimals, then the unit symbol. -/
def formatSpec (x : ℚ) (ladder : List (ℚ × String)) (small : ℚ × String) : String :=
  fmt3 (x / (chooseFrom x ladder small).1) ++ " " ++ (chooseFrom x ladder small).2

/-- The mass ladder of the spec, largest to smallest convertible unit. -/
def massLadder : List (ℚ × String) := [(1000, "kg"), (1, "g"), (1/1000, "mg")]

/-- The smallest mass unit. -/
def massSmall : ℚ × String := (1/1000000, "µg")

/-- The volume ladder of the spec. -/
def volumeLadder : List (ℚ × String) := [(1, "L"), (1/1000, "mL")]

/-- The smallest volume unit. -/
def volumeSmall : ℚ × String := (1/1000000, "µL")

/-- The concentration ladder of the spec. -/
def concLadder : List (ℚ × String) := [(1, "M"), (1/1000, "mM"), (1/1000000, "µM")]

/-- The smallest concentration unit. -/
def concSmall : ℚ × String := (1/1000000000, "nM")

theorem serialLoop_eq (f : ℚ) (u : ConcentrationUnit) (hf : f ≠ 0) :
    ∀ (k i : ℕ) (c : ℚ),
      serialLoop f u k i c =
        Except.ok ((List.range k).map (fun j =>
          (i + j, c / f ^ j, format_concentration (c / f ^ j * concGetD u)))) := by
  intro k
  induction k with
  | zero => intro i c; simp [serialLoop]
  | succ k ih =>
    intro i c
    unfold serialLoop pydiv
    rw [if_neg hf]
    simp only [ih (i + 1) (c / f)]
    rw [List.range_succ_eq_map, List.map_cons, List.map_map]
    simp only [pow_zero, div_one, add_zero]
    refine congrArg Except.ok (congrArg (List.cons _) ?_)
    refine List.map_congr_left ?_
    intro j _
    have h1 : i + 1 + j = i + (j + 1) := by omega
    have h2 : c / f / f ^ j = c / f ^ (j + 1) := by
      rw [div_div, pow_succ, mul_comm]
    simp [Function.comp, h1, h2]

theorem calculate_serial_dilution_eq (init f : ℚ) (n : ℕ)
    (u : ConcentrationUnit) (hf : f ≠ 0) :
    calculate_serial_dilution init f n u =
      Except.ok ((List.range (n + 1)).map (fun j =>
        (j, init / f ^ j, format_concentration (init / f ^ j * concGetD u)))) := by
  unfold calculate_serial_dilution
  rw [serialLoop_eq f u hf (n + 1) 0 init]
  simp

/-- Helper: `roundHalfEven` at a value known to equal an integer. -/
theorem roundHalfEven_eq_of_intCast (q : ℚ) (m : ℤ) (h : q = (m : ℚ)) :
    roundHalfEven q = m := by
  rw [h, roundHalfEven_intCast]

/-- Helper: `round4` at a value whose ten-thousandths are exactly `m`. -/
theorem round4_eval (q : ℚ) (m : ℤ) (h : q * 10000 = (m : ℚ)) :
    round4 q = (m : ℚ) / 10000 := by
  unfold round4
  rw [roundHalfEven_eq_of_intCast _ m h]

/-- `scale_recipe` preserves the number of steps in both branches. -/
theorem scale_recipe_length (S : List RecipeStep) (nv ov : ℚ) :
    (scale_recipe S nv ov).length = S.length := by
  unfold scale_recipe
  split_ifs <;> simp

/-- C9: calling `calculate_mass` with `purity = 0` divides by the exact zero
`purity/100` and the resulting `ZeroDivisionError` propagates to the caller:
the function returns no value. -/
theorem C9_zero_purity_division_error (molarity volume mw : ℚ)
    (vu : VolumeUnit) (cu : ConcentrationUnit) :
    calculate_mass molarity volume mw 0 vu cu =
      Except.error PyError.zeroDivision := by
  unfold calculate_mass pydiv
  norm_num

/-- C7: when the normalized stock concentration `c1_M` is exactly 0,
`calculate_stock_volume` short-circuits before any division, returning stock
volume 0 with the literal string `"0 L"` and the full normalized target
volume as diluent with its formatted string. -/
theorem C7_zero_stock_short_circuit (c1 c2 v2 : ℚ)
    (c1u c2u : ConcentrationUnit) (v2u : VolumeUnit)
    (h : c1 * concGetD c1u = 0) :
    calculate_stock_volume c1 c2 v2 c1u c2u v2u =
      (0, "0 L", v2 * volGetD v2u, format_volume (v2 * volGetD v2u)) := by
  unfold calculate_stock_volume
  rw [if_pos h]

/-- Witness for C7 at `c1 = 0`, `c2 = 1 M`, `v2 = 2 L`. -/
theorem C7_witness :
    (0 : ℚ) * concGetD ConcentrationUnit.MOLAR = 0 ∧
    calculate_stock_volume 0 1 2 ConcentrationUnit.MOLAR
        ConcentrationUnit.MOLAR VolumeUnit.LITERS = (0, "0 L", 2, "2.000 L") := by
  have h0 : (0 : ℚ) * concGetD ConcentrationUnit.MOLAR = 0 := by norm_num
  refine ⟨h0, ?_⟩
  rw [C7_zero_stock_short_circuit 0 1 2 ConcentrationUnit.MOLAR
    ConcentrationUnit.MOLAR VolumeUnit.LITERS h0]
  have hv : (2 : ℚ) * volGetD VolumeUnit.LITERS = 2 := by
    simp [volGetD, VOLUME_TO_LITERS]
  rw [hv]
  have hfv : format_volume (2 : ℚ) = "2.000 L" := by
    unfold format_volume
    rw [if_pos (by norm_num)]
    rw [fmt3_eval_nonneg _ 2000 (by norm_num) (by norm_num)]
    rfl
  rw [hfv]

/-- C2: for positive volumes, scaling keeps the step count and order, and the
`i`-th output step is the `i`-th input step with only its amount replaced by
`round(amount * new/old, 4)`; all other fields are unchanged.  (The model is
pure, so the input list is never mutated.) -/
theorem C2_scale_recipe_pointwise (S : List RecipeStep) (nv ov : ℚ)
    (hov : 0 < ov) (hnv : 0 < nv) :
    (scale_recipe S nv ov).length = S.length ∧
    ∀ i : ℕ, (scale_recipe S nv ov)[i]? =
      (S[i]?).map (fun s => { s with amount := round4 (s.amount * (nv / ov)) }) := by
  refine ⟨scale_recipe_length S nv ov, ?_⟩
  intro i
  unfold scale_recipe
  rw [if_neg (ne_of_gt hov)]
  simp [List.getElem?_map]

/-- Witness for C2: one NaCl step of amount 10, scaled from 100 to 200. -/
theorem C2_witness : (0 : ℚ) < 100 ∧ (0 : ℚ) < 200 ∧
    (scale_recipe [⟨1, "NaCl", 10, "g", ""⟩] 200 100)[0]? =
      some ⟨1, "NaCl", 20, "g", ""⟩ := by
  refine ⟨by norm_num, by norm_num, ?_⟩
  have h := (C2_scale_recipe_pointwise [⟨1, "NaCl", 10, "g", ""⟩] 200 100
    (by norm_num) (by norm_num)).2 0
  rw [h]
  have ha : round4 ((10 : ℚ) * (200 / 100)) = 20 := by
    rw [round4_eval _ 200000 (by norm_num)]
    norm_num
  simp [ha]

/-- C3 fails as stated: an amount with more than four decimal places is
rounded by the identity scaling, so the output differs from the input. -/
theorem C3_counterexample :
    scale_recipe [⟨1, "NaCl", 1/100000, "g", ""⟩] 1 1 ≠
      [⟨1, "NaCl", 1/100000, "g", ""⟩] := by
  have ha : round4 ((1/100000 : ℚ) * (1 / 1)) = 0 := by
    unfold round4
    have h1 : (1/100000 : ℚ) * (1 / 1) * 10000 = 1/10 := by norm_num
    rw [h1]
    have h2 : roundHalfEven (1/10 : ℚ) = 0 := by
      unfold roundHalfEven
      norm_num
    rw [h2]
    norm_num
  have hl : scale_recipe [⟨1, "NaCl", 1/100000, "g", ""⟩] 1 1 =
      [⟨1, "NaCl", 0, "g", ""⟩] := by
    unfold scale_recipe
    rw [if_neg (by norm_num : ¬ ((1:ℚ) = 0))]
    simp only [List.map_cons, List.map_nil]
    rw [show ((⟨1, "NaCl", 1/100000, "g", ""⟩ : RecipeStep).amount * ((1:ℚ) / 1)) =
      (1/100000 : ℚ) * (1 / 1) from rfl, ha]
  rw [hl]
  intro hEq
  have h := (List.cons.injEq _ _ _ _).mp hEq
  have h2 : (0 : ℚ) = 1/100000 := congrArg RecipeStep.amount h.1
  norm_num at h2

/-- C3 amended: identity scaling returns the steps unchanged exactly when
every amount is already stable under 4-decimal rounding. -/
theorem C3_identity_scaling (S : List RecipeStep) (v : ℚ) (hv : 0 < v)
    (ha : ∀ s ∈ S, round4 s.amount = s.amount) :
    scale_recipe S v v = S := by
  unfold scale_recipe
  rw [if_neg (ne_of_gt hv)]
  show S.map (fun step => { step with amount := round4 (step.amount * (v / v)) }) = S
  refine Eq.trans (List.map_congr_left ?_) (List.map_id S)
  intro s hs
  have h1 : s.amount * (v / v) = s.amount := by
    rw [div_self (ne_of_gt hv), mul_one]
  show { s with amount := round4 (s.amount * (v / v)) } = id s
  obtain ⟨sn, rn, am, au, no⟩ := s
  simp only [id_eq]
  simp only at h1
  rw [RecipeStep.mk.injEq]
  refine ⟨rfl, rfl, ?_, rfl, rfl⟩
  rw [h1]
  exact ha ⟨sn, rn, am, au, no⟩ hs

/-- Witness for C3 (amended): amount 2.5 is 4-decimal stable. -/
theorem C3_witness : (0 : ℚ) < 3 ∧
    scale_recipe [⟨1, "Tris", 5/2, "g", ""⟩] 3 3 = [⟨1, "Tris", 5/2, "g", ""⟩] := by
  refine ⟨by norm_num, ?_⟩
  apply C3_identity_scaling
  · norm_num
  · intro s hs
    simp only [List.mem_singleton] at hs
    subst hs
    show round4 (5/2 : ℚ) = 5/2
    rw [round4_eval _ 25000 (by norm_num)]
    norm_num

/-- C1 fails as stated: `% w/v` has no entry in `CONC_TO_MOLAR`, yet
`calculate_mass` does not fail — `dict.get(unit, 1)` silently supplies the
default factor 1 and a numeric result is returned. -/
theorem C1_counterexample :
    CONC_TO_MOLAR ConcentrationUnit.PERCENT_WV = none ∧
    calculate_mass 1 1 10 100 VolumeUnit.LITERS ConcentrationUnit.PERCENT_WV =
      Except.ok (10, "10.000 g") := by
  refine ⟨rfl, ?_⟩
  have hf : format_mass (10 : ℚ) = "10.000 g" := by
    unfold format_mass
    rw [if_neg (by norm_num), if_pos (by norm_num)]
    rw [fmt3_eval_nonneg _ 10000 (by norm_num) (by norm_num)]
    rfl
  unfold calculate_mass pydiv
  simp only [concGetD, volGetD, CONC_TO_MOLAR, VOLUME_TO_LITERS,
    Option.getD_none, Option.getD_some]
  norm_num [hf]

/-- C1 amended: for a unit with no entry in the conversion table (the percent
units), the `toBase` step inside the calculation functions silently uses
factor 1 instead of failing: such a unit behaves exactly like `M` and the
functions return a number. -/
theorem C1_missing_unit_defaults_to_one (u : ConcentrationUnit)
    (hu : CONC_TO_MOLAR u = none) (m v mw p c1 c2 v2 : ℚ) (vu : VolumeUnit)
    (c2u : ConcentrationUnit) (v2u : VolumeUnit) :
    concGetD u = 1 ∧
    calculate_mass m v mw p vu u =
      calculate_mass m v mw p vu ConcentrationUnit.MOLAR ∧
    calculate_stock_volume c1 c2 v2 u c2u v2u =
      calculate_stock_volume c1 c2 v2 ConcentrationUnit.MOLAR c2u v2u := by
  have h1 : concGetD u = 1 := by rw [concGetD, hu]; rfl
  have h2 : concGetD ConcentrationUnit.MOLAR = 1 := rfl
  refine ⟨h1, ?_, ?_⟩
  · unfold calculate_mass
    rw [h1, h2]
  · unfold calculate_stock_volume
    rw [h1, h2]

/-- Witness for C1 (amended) at `% v/v`. -/
theorem C1_witness :
    CONC_TO_MOLAR ConcentrationUnit.PERCENT_VV = none ∧
    calculate_mass 2 3 10 100 VolumeUnit.LITERS ConcentrationUnit.PERCENT_VV =
      calculate_mass 2 3 10 100 VolumeUnit.LITERS ConcentrationUnit.MOLAR :=
  ⟨rfl, (C1_missing_unit_defaults_to_one ConcentrationUnit.PERCENT_VV rfl
    2 3 10 100 0 0 0 VolumeUnit.LITERS ConcentrationUnit.MOLAR
    VolumeUnit.LITERS).2.1⟩

/-- C6 fails as stated: with `dilution_factor = 0` the loop's division raises
`ZeroDivisionError`, so no list of `num_dilutions + 1` entries is returned. -/
theorem C6_counterexample :
    okLength (calculate_serial_dilution 1000 0 3 ConcentrationUnit.MOLAR) = none ∧
    calculate_serial_dilution 1000 0 3 ConcentrationUnit.MOLAR =
      Except.error PyError.zeroDivision := by
  have h : calculate_serial_dilution 1000 0 3 ConcentrationUnit.MOLAR =
      Except.error PyError.zeroDivision := by
    unfold calculate_serial_dilution
    unfold serialLoop pydiv
    simp
  exact ⟨by rw [h]; rfl, h⟩

/-- C6 amended: for every nonzero dilution factor, the call succeeds with
exactly `num_dilutions + 1` entries, entry `i` being its index, the raw
pre-division concentration `initial_conc / factor^i` in the caller's unit
scale, and the formatted string of that concentration times the unit's factor
to molar.  (With factor 0 the loop's division raises instead.) -/
theorem C6_serial_dilution_entries (init f : ℚ) (n : ℕ)
    (u : ConcentrationUnit) (hf : f ≠ 0) :
    calculate_serial_dilution init f n u =
      Except.ok ((List.range (n + 1)).map (fun i =>
        (i, init / f ^ i, format_concentration (init / f ^ i * concGetD u)))) ∧
    okLength (calculate_serial_dilution init f n u) = some (n + 1) := by
  have h := calculate_serial_dilution_eq init f n u hf
  refine ⟨h, ?_⟩
  rw [h]
  simp [okLength]

/-- Witness for C6 (amended): the spec's scenario 3, raw concentrations
1000, 100, 10, 1 at steps 0..3. -/
theorem C6_witness : (10 : ℚ) ≠ 0 ∧
    calculate_serial_dilution 1000 10 3 ConcentrationUnit.MOLAR =
      Except.ok [(0, 1000, "1000.000 M"), (1, 100, "100.000 M"),
        (2, 10, "10.000 M"), (3, 1, "1.000 M")] := by
  refine ⟨by norm_num, ?_⟩
  rw [(C6_serial_dilution_entries 1000 10 3 ConcentrationUnit.MOLAR (by norm_num)).1]
  have e0 : format_concentration (1000 : ℚ) = "1000.000 M" := by
    unfold format_concentration
    rw [if_pos (by norm_num)]
    rw [fmt3_eval_nonneg _ 1000000 (by norm_num) (by norm_num)]
    rfl
  have e1 : format_concentration (100 : ℚ) = "100.000 M" := by
    unfold format_concentration
    rw [if_pos (by norm_num)]
    rw [fmt3_eval_nonneg _ 100000 (by norm_num) (by norm_num)]
    rfl
  have e2 : format_concentration (10 : ℚ) = "10.000 M" := by
    unfold format_concentration
    rw [if_pos (by norm_num)]
    rw [fmt3_eval_nonneg _ 10000 (by norm_num) (by norm_num)]
    rfl
  have e3 : format_concentration (1 : ℚ) = "1.000 M" := by
    unfold format_concentration
    rw [if_pos (by norm_num)]
    rw [fmt3_eval_nonneg _ 1000 (by norm_num) (by norm_num)]
    rfl
  have hc : concGetD ConcentrationUnit.MOLAR = 1 := rfl
  simp only [hc, mul_one, List.range_succ, List.range_zero, List.nil_append,
    List.cons_append, List.map_cons, List.map_nil]
  norm_num
  exact ⟨e0, e1, e2, e3⟩

/-- C4 fails as stated: with `initial_conc = 0` (and factor 2 > 1) every raw
concentration is 0, so consecutive entries do not strictly decrease. -/
theorem C4_counterexample : (1 : ℚ) < 2 ∧
    ¬ List.Chain' (fun a b => b < a)
      (rawConcs (calculate_serial_dilution 0 2 1 ConcentrationUnit.MOLAR)) := by
  refine ⟨by norm_num, ?_⟩
  have h : rawConcs (calculate_serial_dilution 0 2 1 ConcentrationUnit.MOLAR) =
      [0, 0] := by
    rw [calculate_serial_dilution_eq 0 2 1 ConcentrationUnit.MOLAR (by norm_num)]
    unfold rawConcs
    simp [List.range_succ]
  rw [h]
  intro hc
  rw [List.chain'_cons] at hc
  exact absurd hc.1 (lt_irrefl 0)

/-- C4 amended: for a positive initial concentration and a dilution factor
greater than 1, the raw concentrations strictly decrease between consecutive
entries. -/
theorem C4_strict_decrease (init f : ℚ) (n : ℕ) (u : ConcentrationUnit)
    (hinit : 0 < init) (hf : 1 < f) :
    List.Chain' (fun a b => b < a)
      (rawConcs (calculate_serial_dilution init f n u)) := by
  have hf0 : (0 : ℚ) < f := lt_trans zero_lt_one hf
  rw [calculate_serial_dilution_eq init f n u (ne_of_gt hf0)]
  simp only [rawConcs]
  rw [List.map_map, List.chain'_map]
  refine (List.chain'_range_succ _ n).mpr ?_
  intro m hm
  simp only [Function.comp]
  exact div_lt_div_of_pos_left hinit (pow_pos hf0 m) (pow_lt_pow_right₀ hf (by omega))

/-- Witness for C4 (amended): 1000 diluted by 10, two dilutions. -/
theorem C4_witness : (0 : ℚ) < 1000 ∧ (1 : ℚ) < 10 ∧
    List.Chain' (fun a b => b < a)
      (rawConcs (calculate_serial_dilution 1000 10 2 ConcentrationUnit.MOLAR)) :=
  ⟨by norm_num, by norm_num,
    C4_strict_decrease 1000 10 2 ConcentrationUnit.MOLAR (by norm_num) (by norm_num)⟩

/-- C5 fails as stated: at `mass_g = 1000000` the largest-unit (kg) branch is
taken — not the smallest-unit branch — yet the displayed number is 1000,
outside `[1, 1000)`: the top rung of each ladder has no upper cap. -/
theorem C5_counterexample : (0 : ℚ) < 1000000 ∧ (1/1000 : ℚ) ≤ 1000000 ∧
    massDisplayed 1000000 = 1000 ∧ ¬ massDisplayed 1000000 < 1000 ∧
    format_mass 1000000 = "1000.000 kg" := by
  have hd : massDisplayed (1000000 : ℚ) = 1000 := by
    unfold massDisplayed
    rw [if_pos (by norm_num)]
    norm_num
  refine ⟨by norm_num, by norm_num, hd, by rw [hd]; norm_num, ?_⟩
  unfold format_mass
  rw [if_pos (by norm_num)]
  rw [show (1000000 : ℚ) / 1000 = 1000 from by norm_num]
  rw [fmt3_eval_nonneg _ 1000000 (by norm_num) (by norm_num)]
  rfl

/-- C5 amended: for every positive base value the displayed number is at
least 1 unless the smallest-unit branch is taken, and below 1000 unless the
largest-unit branch is taken (the top rung is unbounded above). -/
theorem C5_display_bounds (x : ℚ) (hx : 0 < x) :
    (format_mass x = fmt3 (massDisplayed x) ++ " " ++ massSym x) ∧
    (1/1000 ≤ x → 1 ≤ massDisplayed x) ∧
    (x < 1000 → massDisplayed x < 1000) ∧
    (format_volume x = fmt3 (volumeDisplayed x) ++ " " ++ volumeSym x) ∧
    (1/1000 ≤ x → 1 ≤ volumeDisplayed x) ∧
    (x < 1 → volumeDisplayed x < 1000) ∧
    (format_concentration x = fmt3 (concDisplayed x) ++ " " ++ concSym x) ∧
    (1/1000000 ≤ x → 1 ≤ concDisplayed x) ∧
    (x < 1 → concDisplayed x < 1000) := by
  refine ⟨format_mass_displayed x, ?_, ?_, format_volume_displayed x, ?_, ?_,
    format_concentration_displayed x, ?_, ?_⟩
  · intro h
    unfold massDisplayed
    split_ifs with h1 h2
    · exact (one_le_div (by norm_num)).mpr h1
    · exact h2
    · linarith
  · intro h
    unfold massDisplayed
    split_ifs with h1 h2 h3 <;> linarith
  · intro h
    unfold volumeDisplayed
    split_ifs with h1
    · exact h1
    · linarith
  · intro h
    unfold volumeDisplayed
    split_ifs with h1 h2 <;> linarith
  · intro h
    unfold concDisplayed
    split_ifs with h1 h2
    · exact h1
    · linarith
    · linarith
  · intro h
    unfold concDisplayed
    split_ifs with h1 h2 h3 <;> linarith

/-- Witness for C5 (amended) at `x = 1/2` (the mg rung displays 500). -/
theorem C5_witness : (0 : ℚ) < 1/2 ∧
    1 ≤ massDisplayed (1/2) ∧ massDisplayed (1/2) < 1000 := by
  have h := C5_display_bounds (1/2) (by norm_num)
  exact ⟨by norm_num, h.2.1 (by norm_num), h.2.2.1 (by norm_num)⟩

/-- Unfolding lemma: `formatSpec` on a non-empty ladder takes the head unit
exactly when the value expressed in it reaches 1. -/
theorem formatSpec_cons (x f : ℚ) (s : String) (rest : List (ℚ × String))
    (small : ℚ × String) :
    formatSpec x ((f, s) :: rest) small =
      if 1 ≤ x / f then fmt3 (x / f) ++ " " ++ s else formatSpec x rest small := by
  unfold formatSpec
  simp only [chooseFrom]
  split_ifs <;> rfl

/-- Unfolding lemma: an exhausted ladder falls through to the smallest unit. -/
theorem formatSpec_nil (x f : ℚ) (s : String) :
    formatSpec x [] (f, s) = fmt3 (x / f) ++ " " ++ s := rfl

/-- C8: each format function selects the largest ladder unit in which the
value is at least 1, falling through to the smallest unit (µg/µL/nM), renders
three decimals then the unit symbol; in particular 0 grams formats as
`"0.000 µg"`.  The right-hand sides are the spec-modelled `formatSpec`. -/
theorem C8_format_ladder_refinement (x : ℚ) :
    format_mass x = formatSpec x massLadder massSmall ∧
    format_volume x = formatSpec x volumeLadder volumeSmall ∧
    format_concentration x = formatSpec x concLadder concSmall ∧
    format_mass 0 = "0.000 µg" := by
  have hm : formatSpec x massLadder massSmall = format_mass x := by
    unfold massLadder massSmall
    rw [formatSpec_cons, formatSpec_cons, formatSpec_cons, formatSpec_nil]
    rw [div_one x,
      show (x / (1/1000 : ℚ)) = x * 1000 from by rw [div_div_eq_mul_div, div_one],
      show (x / (1/1000000 : ℚ)) = x * 1000000 from by
        rw [div_div_eq_mul_div, div_one]]
    simp only [show ((1 : ℚ) ≤ x / 1000) ↔ (1000 ≤ x) from one_le_div (by norm_num),
      show ((1 : ℚ) ≤ x * 1000) ↔ (1/1000 ≤ x) from
        by constructor <;> intro <;> linarith]
    unfold format_mass
    split_ifs <;> (rw [String.append_assoc]; rfl)
  have hv : formatSpec x volumeLadder volumeSmall = format_volume x := by
    unfold volumeLadder volumeSmall
    rw [formatSpec_cons, formatSpec_cons, formatSpec_nil]
    rw [div_one x,
      show (x / (1/1000 : ℚ)) = x * 1000 from by rw [div_div_eq_mul_div, div_one],
      show (x / (1/1000000 : ℚ)) = x * 1000000 from by
        rw [div_div_eq_mul_div, div_one]]
    simp only [show ((1 : ℚ) ≤ x * 1000) ↔ (1/1000 ≤ x) from
      by constructor <;> intro <;> linarith]
    unfold format_volume
    split_ifs <;> (rw [String.append_assoc]; rfl)
  have hc : formatSpec x concLadder concSmall = format_concentration x := by
    unfold concLadder concSmall
    rw [formatSpec_cons, formatSpec_cons, formatSpec_cons, formatSpec_nil]
    rw [div_one x,
      show (x / (1/1000 : ℚ)) = x * 1000 from by rw [div_div_eq_mul_div, div_one],
      show (x / (1/1000000 : ℚ)) = x * 1000000 from by
        rw [div_div_eq_mul_div, div_one],
      show (x / (1/1000000000 : ℚ)) = x * 1000000000 from by
        rw [div_div_eq_mul_div, div_one]]
    simp only [show ((1 : ℚ) ≤ x * 1000) ↔ (1/1000 ≤ x) from
        by constructor <;> intro <;> linarith,
      show ((1 : ℚ) ≤ x * 1000000) ↔ (1/1000000 ≤ x) from
        by constructor <;> intro <;> linarith]
    unfold format_concentration
    split_ifs <;> (rw [String.append_assoc]; rfl)
  have hz : format_mass 0 = "0.000 µg" := by
    unfold format_mass
    rw [if_neg (by norm_num), if_neg (by norm_num), if_neg (by norm_num)]
    rw [fmt3_eval_nonneg _ 0 (by norm_num) (by norm_num)]
    rfl
  exact ⟨hm.symm, hv.symm, hc.symm, hz⟩

/-- C10: every negative base value fails all `>=` thresholds and is formatted
in the smallest-unit branch (µg/µL/nM); in particular the negative diluent
volume returned by `calculate_stock_volume` when `v1 > v2` is rendered as a
negative number of microliters. -/
theorem C10_negative_values_format_smallest (x c1 c2 v2 : ℚ)
    (c1u c2u : ConcentrationUnit) (v2u : VolumeUnit) :
    (x < 0 → format_mass x = fmt3 (x * 1000000) ++ " µg") ∧
    (x < 0 → format_volume x = fmt3 (x * 1000000) ++ " µL") ∧
    (x < 0 → format_concentration x = fmt3 (x * 1000000000) ++ " nM") ∧
    ((calculate_stock_volume c1 c2 v2 c1u c2u v2u).2.2.1 < 0 →
      (calculate_stock_volume c1 c2 v2 c1u c2u v2u).2.2.2 =
        fmt3 ((calculate_stock_volume c1 c2 v2 c1u c2u v2u).2.2.1 * 1000000)
          ++ " µL") := by
  have hvol : ∀ y : ℚ, y < 0 → format_volume y = fmt3 (y * 1000000) ++ " µL" := by
    intro y hy
    unfold format_volume
    rw [if_neg (not_le.mpr (by linarith)), if_neg (not_le.mpr (by linarith))]
  refine ⟨?_, fun h => hvol x h, ?_, ?_⟩
  · intro h
    unfold format_mass
    rw [if_neg (not_le.mpr (by linarith)), if_neg (not_le.mpr (by linarith)),
      if_neg (not_le.mpr (by linarith))]
  · intro h
    unfold format_concentration
    rw [if_neg (not_le.mpr (by linarith)), if_neg (not_le.mpr (by linarith)),
      if_neg (not_le.mpr (by linarith))]
  · intro h
    have hsv : (calculate_stock_volume c1 c2 v2 c1u c2u v2u).2.2.2 =
        format_volume ((calculate_stock_volume c1 c2 v2 c1u c2u v2u).2.2.1) := by
      simp only [calculate_stock_volume]
      split_ifs <;> rfl
    rw [hsv]
    exact hvol _ h

/-- Witness for C10: `format_mass (-1)` and the stock dilution 1 M → 2 M in
1 L, whose diluent is −1 L. -/
theorem C10_witness :
    format_mass (-1) = "-1000000.000 µg" ∧
    (calculate_stock_volume 1 2 1 ConcentrationUnit.MOLAR ConcentrationUnit.MOLAR
      VolumeUnit.LITERS).2.2.2 = "-1000000.000 µL" := by
  obtain ⟨h1, h2, h3, h4⟩ := C10_negative_values_format_smallest (-1) 1 2 1
    ConcentrationUnit.MOLAR ConcentrationUnit.MOLAR VolumeUnit.LITERS
  have hd : (calculate_stock_volume 1 2 1 ConcentrationUnit.MOLAR
      ConcentrationUnit.MOLAR VolumeUnit.LITERS).2.2.1 = -1 := by
    simp only [calculate_stock_volume, concGetD, volGetD, CONC_TO_MOLAR,
      VOLUME_TO_LITERS, Option.getD_some]
    norm_num
  constructor
  · rw [h1 (by norm_num)]
    rw [fmt3_eval_neg _ 1000000000 (by norm_num) (by norm_num)]
    rfl
  · rw [h4 (by rw [hd]; norm_num), hd]
    rw [fmt3_eval_neg _ 1000000000 (by norm_num) (by norm_num)]
    rfl
